import Mathlib

/-!
Shallow embedding of the footmark connection layer
(src/footmark/vpc/connection.py and src/footmark/ecs/connection.py).

Provider interaction is modelled by oracles: a fetch oracle of type
`Nat → FetchRes` gives the observation returned by the n-th re-fetch of a
resource's state, and similar per-call oracles model `get_status` outcomes.
Fetches and sleeps are counted in the returned trace.  Timers (Python ints)
are modelled as naturals; the VPC/VSwitch loop's `timeout -= delay` followed
by `if timeout <= 0` is rendered as the test `timeout ≤ delay` on naturals,
which selects the same branch as the Python code on all natural inputs.
Loops that the Python code does not bound are given explicit fuel counting
the loop iterations still allowed, with `PollOut.diverge` marking fuel
exhaustion; theorems either supply sufficient fuel or hold for every fuel
value.
-/

/-- Result of one provider fetch of a resource's state: either a resource
whose status field is the given string, or no matching resource. -/
inductive FetchRes where
  | found (status : String)
  | missing
deriving DecidableEq, Repr

/-- Outcome of running a polling loop: a normal return value, a raised
exception (with message), or fuel exhaustion (the Python loop would still
be running). -/
inductive PollOut (α : Type) where
  | ok (val : α)
  | exn (msg : String)
  | diverge
deriving DecidableEq, Repr

/-- Trace of a polling loop: its outcome plus the number of state fetches
performed and the number of sleep calls executed. -/
structure PollTrace (α : Type) where
  result : PollOut α
  fetches : Nat
  sleeps : Nat
deriving DecidableEq, Repr

/-- Python `str.lower` (ASCII case mapping suffices for the status strings
involved), written over the character list so that it reduces in the
kernel. -/
def pyLower (s : String) : String := String.mk (s.data.map Char.toLower)

/-- Whitespace characters removed by Python `str.strip`. -/
def isPySpace (c : Char) : Bool :=
  c == ' ' || c == '\t' || c == '\n' || c == '\r' || c == '\x0b' || c == '\x0c'

/-- Python `str.strip` (whitespace on both ends), written over the character
list so that it reduces in the kernel. -/
def pyStrip (s : String) : String :=
  String.mk (((s.data.dropWhile isPySpace).reverse.dropWhile isPySpace).reverse)

/-- Timeout message raised by `wait_for_eip_status`. -/
def eipTimeoutMsg (status : String) : String :=
  "Timeout Error: Waiting For EIP Status " ++ status

/-- Loop of `wait_for_eip_status` (vpc/connection.py lines 716-738):
`tm = 0; while tm < timeout: fetch; if no eips: return None; if
lower(status) == lower(eips[0].status): return eips[0]; tm += interval;
if tm >= timeout: raise; sleep(interval)`, and `return None` after the
loop.  `tm`, `k` (fetch counter) and `sl` (sleep counter) are the loop
state; `fuel` bounds the number of loop iterations still allowed. -/
def eipPollAux (orc : Nat → FetchRes) (status : String)
    (interval timeout : Nat) : Nat → Nat → Nat → Nat → PollTrace (Option String)
  | _, k, sl, 0 => ⟨.diverge, k, sl⟩
  | tm, k, sl, fuel + 1 =>
    if tm < timeout then
      match orc k with
      | .missing => ⟨.ok none, k + 1, sl⟩
      | .found s =>
        if pyLower status == pyLower s then ⟨.ok (some s), k + 1, sl⟩
        else if timeout ≤ tm + interval then ⟨.exn (eipTimeoutMsg status), k + 1, sl⟩
        else eipPollAux orc status interval timeout (tm + interval) (k + 1) (sl + 1) fuel
    else ⟨.ok none, k, sl⟩

/-- `VPCConnection.wait_for_eip_status`: run the EIP polling loop from its
initial state. -/
def wait_for_eip_status (orc : Nat → FetchRes) (status : String)
    (interval timeout fuel : Nat) : PollTrace (Option String) :=
  eipPollAux orc status interval timeout 0 0 0 fuel

/-- Match test of `wait_for_vpc_status` / `wait_for_vswitch_status`
(vpc/connection.py lines 783 and 799): the fetched resource exists and its
status is in the two-element list `[status, str(status).lower()]`. -/
def vpcMatches (r : FetchRes) (status : String) : Bool :=
  match r with
  | .found s => s == status || s == pyLower status
  | .missing => false

/-- Timeout message raised by `wait_for_vpc_status`. -/
def vpcTimeoutMsg (status : String) : String :=
  "Timeout Error: Waiting for VPC status is " ++ status

/-- Loop shared verbatim by `wait_for_vpc_status` (lines 778-793) and
`wait_for_vswitch_status` (lines 795-809): `while True: fetch; if match:
return True; timeout -= delay; if timeout <= 0: raise; sleep(delay)`. -/
def vpcPollAux (orc : Nat → FetchRes) (status : String)
    (delay : Nat) : Nat → Nat → Nat → Nat → PollTrace Bool
  | _, k, sl, 0 => ⟨.diverge, k, sl⟩
  | timeout, k, sl, fuel + 1 =>
    if vpcMatches (orc k) status then ⟨.ok true, k + 1, sl⟩
    else if timeout ≤ delay then ⟨.exn (vpcTimeoutMsg status), k + 1, sl⟩
    else vpcPollAux orc status delay (timeout - delay) (k + 1) (sl + 1) fuel

/-- `VPCConnection.wait_for_vpc_status`. -/
def wait_for_vpc_status (orc : Nat → FetchRes) (status : String)
    (delay timeout fuel : Nat) : PollTrace Bool :=
  vpcPollAux orc status delay timeout 0 0 fuel

/-- `VPCConnection.wait_for_vswitch_status`: its loop is textually identical
to the `wait_for_vpc_status` loop (only the fetched resource and the message
differ), so it shares `vpcPollAux`. -/
def wait_for_vswitch_status (orc : Nat → FetchRes) (status : String)
    (delay timeout fuel : Nat) : PollTrace Bool :=
  vpcPollAux orc status delay timeout 0 0 fuel

/-- Timeout message raised by `wait_for_route_entry_status`. -/
def routeTimeoutMsg (status : String) : String :=
  "Timeout Error: Waiting for route entry status is " ++ status

/-- Loop of `wait_for_route_entry_status` (vpc/connection.py lines 811-827):
like the EIP loop, but a missing route entry keeps polling instead of
returning. -/
def routePollAux (orc : Nat → FetchRes) (status : String)
    (delay timeout : Nat) : Nat → Nat → Nat → Nat → PollTrace (Option String)
  | _, k, sl, 0 => ⟨.diverge, k, sl⟩
  | tm, k, sl, fuel + 1 =>
    if tm < timeout then
      match orc k with
      | .found s =>
        if pyLower s == pyLower status then ⟨.ok (some s), k + 1, sl⟩
        else if timeout ≤ tm + delay then ⟨.exn (routeTimeoutMsg status), k + 1, sl⟩
        else routePollAux orc status delay timeout (tm + delay) (k + 1) (sl + 1) fuel
      | .missing =>
        if timeout ≤ tm + delay then ⟨.exn (routeTimeoutMsg status), k + 1, sl⟩
        else routePollAux orc status delay timeout (tm + delay) (k + 1) (sl + 1) fuel
    else ⟨.ok none, k, sl⟩

/-- `VPCConnection.wait_for_route_entry_status`. -/
def wait_for_route_entry_status (orc : Nat → FetchRes) (status : String)
    (delay timeout fuel : Nat) : PollTrace (Option String) :=
  routePollAux orc status delay timeout 0 0 0 fuel

/-- Loop of `ECSConnection.wait_for_disk_status` (ecs/connection.py lines
1616-1634): `while not done: sleep(3); fetch; if no disk: return
(False, errdict); if disk_status == fetched.strip().lower(): return
(True, None)`.  Note the sleep happens BEFORE every fetch, including the
first one.  The value is the pair (changed, error message). -/
def diskPollAux (orc : Nat → FetchRes) (disk_status disk_id : String) :
    Nat → Nat → Nat → PollTrace (Bool × Option String)
  | k, sl, 0 => ⟨.diverge, k, sl⟩
  | k, sl, fuel + 1 =>
    match orc k with
    | .missing =>
      ⟨.ok (false, some ("The specified disk " ++ disk_id ++ " is not found.")), k + 1, sl + 1⟩
    | .found s =>
      if disk_status == pyLower (pyStrip s) then ⟨.ok (true, none), k + 1, sl + 1⟩
      else diskPollAux orc disk_status disk_id (k + 1) (sl + 1) fuel

/-- `ECSConnection.wait_for_disk_status`. -/
def wait_for_disk_status (orc : Nat → FetchRes) (disk_status disk_id : String)
    (fuel : Nat) : PollTrace (Bool × Option String) :=
  diskPollAux orc disk_status disk_id 0 0 fuel

/-- Inner loop of `ECSConnection.wait_for_instance_status` (ecs/connection.py
lines 1603-1614): `while instance.status not in [status, lower(status)]:
sleep(10); instance = fetch`.  A refetch that returns no instance makes the
next `instance.status` access raise (modelled as an exception). -/
def instancePollAux (orc : Nat → FetchRes) (status : String) :
    String → Nat → Nat → Nat → PollTrace Unit
  | cur, k, sl, 0 =>
    if cur == status || cur == pyLower status then ⟨.ok (), k, sl⟩ else ⟨.diverge, k, sl⟩
  | cur, k, sl, fuel + 1 =>
    if cur == status || cur == pyLower status then ⟨.ok (), k, sl⟩
    else
      match orc k with
      | .missing => ⟨.exn "AttributeError", k + 1, sl + 1⟩
      | .found s => instancePollAux orc status s (k + 1) (sl + 1) fuel

/-- `ECSConnection.wait_for_instance_status`: one initial fetch; a missing
instance skips the loop and returns normally. -/
def wait_for_instance_status (orc : Nat → FetchRes) (status : String)
    (fuel : Nat) : PollTrace Unit :=
  match orc 0 with
  | .missing => ⟨.ok (), 1, 0⟩
  | .found s => instancePollAux orc status s 1 0 fuel

/-- Outcome of one `get_status` call made by `delete_object_retry`: a normal
boolean result, a `ServerException` carrying a provider error code, or any
other exception. -/
inductive CallRes where
  | ok (done : Bool)
  | serverErr (code : String)
  | genericErr (msg : String)
deriving DecidableEq, Repr

/-- Loop body of `ECSConnection.delete_object_retry` (ecs/connection.py lines
1636-1653): `done = False; while not done: sleep(5); try: done =
get_status(action, params); except ServerException as e: if e.error_code ==
"IncorrectInstanceStatus.Initializing": continue`.  A `ServerException` whose
code is NOT the initializing code falls through the `if` to the end of the
loop body, which is exactly where `continue` goes, so every
`ServerException` re-enters the loop; a non-`ServerException` exception
escapes (and is re-raised by the enclosing handler).  The n-th `get_status`
outcome is `orc n`; `k` counts get_status calls, `sl` counts `sleep(5)`
calls. -/
def deleteRetryAux (orc : Nat → CallRes) : Nat → Nat → Nat → PollTrace Bool
  | k, sl, 0 => ⟨.diverge, k, sl⟩
  | k, sl, fuel + 1 =>
    match orc k with
    | .ok true => ⟨.ok true, k + 1, sl + 1⟩
    | .ok false => deleteRetryAux orc (k + 1) (sl + 1) fuel
    | .serverErr _ => deleteRetryAux orc (k + 1) (sl + 1) fuel
    | .genericErr m => ⟨.exn m, k + 1, sl + 1⟩

/-- `ECSConnection.delete_object_retry` (its body; the surrounding `retry`
decorator re-invokes this body only when an exception escapes it). -/
def delete_object_retry (orc : Nat → CallRes) (fuel : Nat) : PollTrace Bool :=
  deleteRetryAux orc 0 0 fuel

/-- Outcome of processing one instance id inside `join_security_group`: the
`JoinSecurityGroup` call plus the follow-up verification either complete
with a verification result, or raise a `ServerException` (with the
provider's code, message, request id and http status), or raise any other
exception. -/
inductive JoinRes where
  | verified (changed : Bool)
  | serverErr (code msg requestId : String) (httpStatus : Nat)
  | genericErr (msg : String)
deriving DecidableEq, Repr

/-- An entry appended to a batch operation's `results` list. -/
inductive BatchEntry where
  | serverErr (code msg requestId : String) (httpStatus : Nat)
  | genericErr (msg : String)
deriving DecidableEq, Repr

/-- Return shape of `join_security_group`: the tuple `(changed, results,
success_instance_ids, failed_instance_ids)`. -/
structure BatchResult where
  changed : Bool
  results : List BatchEntry
  success_instance_ids : List String
  failed_instance_ids : List String
deriving DecidableEq, Repr

/-- Per-instance loop of `ECSConnection.join_security_group`
(ecs/connection.py lines 657-703): each id is attempted in order; on
success `changed` is overwritten with the verification result and the id is
appended to `success_instance_ids` iff it verified; on `ServerException`
the id goes to `failed_instance_ids` and an error entry carrying the
provider code goes to `results`; on any other exception the id goes to
`failed_instance_ids` with a generic entry.  Processing always continues
with the next id. -/
def joinAux (orc : String → JoinRes) (changed : Bool) :
    List String → BatchResult
  | [] => ⟨changed, [], [], []⟩
  | inst :: rest =>
    match orc inst with
    | .verified v =>
      let r := joinAux orc v rest
      ⟨r.changed, r.results,
        if v then inst :: r.success_instance_ids else r.success_instance_ids,
        r.failed_instance_ids⟩
    | .serverErr c m rid hs =>
      let r := joinAux orc changed rest
      ⟨r.changed, .serverErr c m rid hs :: r.results, r.success_instance_ids,
        inst :: r.failed_instance_ids⟩
    | .genericErr m =>
      let r := joinAux orc changed rest
      ⟨r.changed, .genericErr m :: r.results, r.success_instance_ids,
        inst :: r.failed_instance_ids⟩

/-- `ECSConnection.join_security_group`.  The `instance_ids` argument is
typed as a list, so the `isinstance(instance_ids, list)` guard always
passes. -/
def join_security_group (instance_ids : List String) (orc : String → JoinRes) :
    BatchResult :=
  joinAux orc false instance_ids

/-- A disk record as returned by `get_all_volumes`: the fields
`retrieve_instance_for_disk` reads. -/
structure DiskInfo where
  status : String
  instance_id : String
  portable : String
deriving DecidableEq, Repr

/-- Outcome of the `get_all_volumes` call inside
`retrieve_instance_for_disk`. -/
inductive VolFetch where
  | ok (disks : List DiskInfo)
  | serverErr (code msg requestId : String) (httpStatus : Nat)
  | genericErr (msg : String)
deriving DecidableEq, Repr

/-- Value returned by `retrieve_instance_for_disk`: the source returns a
2-tuple on the not-found path and a 4-tuple `(instance_id, disk_status,
disk_portable, results)` otherwise, so both shapes are constructors here.
Fields that Python leaves as `None` are `Option.none`. -/
inductive RetrieveRet where
  | pair (changed : Bool) (err : String)
  | quad (instance_id disk_status disk_portable : Option String)
      (results : List BatchEntry)
deriving DecidableEq, Repr

/-- `ECSConnection.retrieve_instance_for_disk` (ecs/connection.py lines
1232-1261).  On an empty disk list it returns the 2-tuple
`(False, errdict)`.  With a disk present, the comparison `disk_status ==
str(disks[0].status).strip().lower()` compares the still-`None` local
`disk_status` with a string and is therefore never true (dead code), so the
function falls through to the 4-tuple.  On `ServerException` the locals are
still `None` and the error entry is collected in `results`.  On any other
exception the handler itself evaluates `disks.disks` on `disks = None`,
raising an `AttributeError` that propagates (`Except.error`). -/
def retrieve_instance_for_disk (disk_id : String) (fetch : VolFetch) :
    Except String RetrieveRet :=
  match fetch with
  | .ok [] => .ok (.pair false ("The specified disk " ++ disk_id ++ " is not found."))
  | .ok (d :: _) => .ok (.quad (some d.instance_id) (some d.status) (some d.portable) [])
  | .serverErr c m rid hs => .ok (.quad none none none [.serverErr c m rid hs])
  | .genericErr _ => .error "AttributeError: NoneType object has no attribute disks"

/-- Outcome of the `get_status('AttachDisk', params)` call. -/
inductive AttachCall where
  | ok (st : Bool)
  | serverErr (code msg requestId : String) (httpStatus : Nat)
  | genericErr (msg : String)
deriving DecidableEq, Repr

/-- Outcome of the `wait_for_disk_status` call made after a successful
`AttachDisk`: `(True, None)`, `(False, errdict)`, or a raised exception
(the `retry` decorator re-raises once its tries are exhausted). -/
inductive WaitDiskRes where
  | done
  | failed (err : String)
  | raised (msg : String)
deriving DecidableEq, Repr

/-- Python truthiness of an optional string (`None` and `""` are falsy). -/
def pyTruthyOpt (s : Option String) : Bool :=
  match s with
  | none => false
  | some v => v ≠ ""

/-- `ECSConnection.attach_disk` (ecs/connection.py lines 1125-1186),
returning the `(changed, results)` pair (or a propagated exception) together
with the list of provider actions issued, in order.  The volume lookup made
by `retrieve_instance_for_disk` is recorded as `DescribeDisks`; the mutating
call as `AttachDisk`.  Unpacking the 2-tuple return of
`retrieve_instance_for_disk` into four variables raises a `ValueError` that
propagates (the unpacking is outside any `try`). -/
def attach_disk (disk_id : String) (instance_id : Option String)
    (fetch : VolFetch) (call : AttachCall) (wait : WaitDiskRes) :
    Except String (Bool × List BatchEntry) × List String :=
  if pyTruthyOpt instance_id = false then
    (.ok (false, [.genericErr ("Disk " ++ disk_id ++ " is not attached to any instance")]), [])
  else
    match retrieve_instance_for_disk disk_id fetch with
    | .error e => (.error e, ["DescribeDisks"])
    | .ok (.pair _ _) => (.error "ValueError: need more than 2 values to unpack", ["DescribeDisks"])
    | .ok (.quad _ disk_status _ result) =>
      if result ≠ [] then (.ok (false, result), ["DescribeDisks"])
      else if pyTruthyOpt disk_status ∧ pyLower (pyStrip (disk_status.getD "")) ≠ "available" then
        (.ok (false, [.genericErr ("The disk " ++ disk_id ++ " status " ++ disk_status.getD ""
          ++ " does not support to operate attachment.")]), ["DescribeDisks"])
      else
        match call with
        | .ok true =>
          match wait with
          | .done => (.ok (true, []), ["DescribeDisks", "AttachDisk", "DescribeDisks"])
          | .failed e => (.ok (false, [.genericErr e]), ["DescribeDisks", "AttachDisk", "DescribeDisks"])
          | .raised m => (.ok (false, [.genericErr m]), ["DescribeDisks", "AttachDisk", "DescribeDisks"])
        | .ok false => (.ok (false, []), ["DescribeDisks", "AttachDisk"])
        | .serverErr c m rid hs => (.ok (false, [.serverErr c m rid hs]), ["DescribeDisks", "AttachDisk"])
        | .genericErr m => (.ok (false, [.genericErr m]), ["DescribeDisks", "AttachDisk"])

/-- `ECSConnection.describe_instances` (ecs/connection.py lines 123-149).
Parameter building happens before the guarded region and its failures
propagate (`params_build`); the `get_list('DescribeInstances', ...)` call is
inside `try: ... except Exception: instances = None`, so ANY fetch failure
yields `None` while a successful fetch yields the (possibly empty) list.
Instance records are opaque strings here. -/
def describe_instances (params_build : Except String Unit)
    (fetch : Except String (List String)) : Except String (Option (List String)) :=
  match params_build with
  | .error e => .error e
  | .ok _ =>
    match fetch with
    | .ok l => .ok (some l)
    | .error _ => .ok none

mutual

/-- A Python value appearing in a filters dict: a string, a number, or a
nested dict. -/
inductive FVal where
  | str (s : String)
  | int (n : Int)
  | dict (d : FDict)

/-- A Python dict of filter entries in iteration order (Python dict keys
are unique, which matters only where noted). -/
inductive FDict where
  | nil
  | cons (key : String) (val : FVal) (rest : FDict)

end

/-- The request-parameter accumulator `params`, keeping insertion order. -/
abbrev Params := List (String × FVal)

/-- Python `s.startswith(pre)` over character lists (kernel-reducible). -/
def chStarts : List Char → List Char → Bool
  | _, [] => true
  | [], _ :: _ => false
  | c :: cs, p :: ps => c == p && chStarts cs ps

/-- Python `s.startswith(pre)`. -/
def pyStarts (s pre : String) : Bool := chStarts s.data pre.data

/-- Python slicing `s[n:]` (kernel-reducible). -/
def pyDrop (s : String) (n : Nat) : String := String.mk (s.data.drop n)

/-- Python dict assignment `params[k] = v`: replace in place if the key
exists, else append. -/
def insertP : Params → String → FVal → Params
  | [], k, v => [(k, v)]
  | (k0, v0) :: rest, k, v =>
    if k0 = k then (k, v) :: rest else (k0, v0) :: insertP rest k v

/-- Python membership test `k in params`. -/
def hasKey (p : Params) (k : String) : Bool :=
  p.any (fun kv => kv.1 == k)

/-- Name of the numbered tag-key parameter slot. -/
def tagKeyName (flag : Nat) : String := "set_Tag" ++ toString flag ++ "Key"

/-- Name of the numbered tag-value parameter slot. -/
def tagValName (flag : Nat) : String := "set_Tag" ++ toString flag ++ "Value"

/-- The slot-search loop `while ('set_Tag%dKey' % flag) in params: flag +=
1`.  It terminates because `params` is finite: at most `params.length`
distinct keys are present, so a free slot is found within `params.length +
1` candidates; `fuel` is always called with that bound. -/
def nextFree (p : Params) : Nat → Nat → Nat
  | flag, 0 => flag
  | flag, fuel + 1 => if hasKey p (tagKeyName flag) then nextFree p (flag + 1) fuel else flag

/-- Python `str.capitalize`: first character upper-cased, the rest
lower-cased. -/
def pyCapitalize (s : String) : String :=
  match s.data with
  | [] => ""
  | c :: cs => String.mk (c.toUpper :: cs.map Char.toLower)

/-- Python `s.split('_')` over character lists (kernel-reducible): split on
every single underscore, keeping empty pieces. -/
def splitUnderscoreAux (acc : List Char) : List Char → List String
  | [] => [String.mk acc.reverse]
  | c :: cs =>
    if c == '_' then String.mk acc.reverse :: splitUnderscoreAux [] cs
    else splitUnderscoreAux (c :: acc) cs

/-- The `snake_case` to `PascalCase` conversion
`''.join(s.capitalize() for s in acs_key.split('_'))`. -/
def pascalKey (k : String) : String :=
  String.join ((splitUnderscoreAux [] k.data).map pyCapitalize)

/-- Loop of `build_filter_params` (identical in ecs/connection.py lines
49-77 and vpc/connection.py lines 42-70) over the remaining filter entries,
threading `params` and `flag`.  For a `tag:`-prefixed key the stored value
is `filters[acs_key]`, which is the value of the entry being iterated
(dict keys are unique).  For `group_id`, `value.startswith('sg-')` on a
non-string raises `AttributeError` (the malformed-string case only warns,
which is not an exception and is not tracked).  A nested dict value is
handed to `self.build_filters_params(params, value)`.  Modelled from the
spec: `build_filters_params` lives on `ACSQueryConnection` in
footmark/connection.py, which is not under src/; per the spec ("For a value
that is itself a mapping, recurse (nested filter expansion)") it is the
same filter expansion applied recursively, i.e. this loop restarted on the
nested dict with a fresh `flag = 1`. -/
def bfpAux (p : Params) (flag : Nat) : FDict → Except String Params
  | .nil => .ok p
  | .cons key value rest =>
    if pyStarts key "tag:" then
      let flag1 := nextFree p flag (p.length + 1)
      let p1 :=
        if flag1 < 6 then
          insertP (insertP p (tagKeyName flag1) (.str (pyDrop key 4))) (tagValName flag1) value
        else p
      bfpAux p1 (flag1 + 1) rest
    else if key = "group_id" then
      match value with
      | .str v => bfpAux (insertP p "set_SecurityGroupId" (.str v)) flag rest
      | _ => .error "AttributeError: object has no attribute startswith"
    else
      match value with
      | .dict d =>
        match bfpAux p 1 d with
        | .ok p2 => bfpAux p2 flag rest
        | .error e => .error e
      | v => bfpAux (insertP p ("set_" ++ pascalKey key) v) flag rest

/-- `build_filter_params(params, filters)`: a non-dict `filters` returns at
once, leaving `params` unchanged. -/
def build_filter_params (p : Params) (filters : FVal) : Except String Params :=
  match filters with
  | .dict l => bfpAux p 1 l
  | _ => .ok p

/-- Ceiling division `ceil(a / b)`, the fetch count the spec predicts for a
poll that times out. -/
def ceilDiv (a b : Nat) : Nat := (a + b - 1) / b

/-- An EIP fetch oracle on which the status never matches: every fetch finds
an EIP whose lowercased status differs from the lowercased target. -/
def neverMatchEip (orc : Nat → FetchRes) (status : String) : Prop :=
  ∀ n, ∃ s, orc n = .found s ∧ (pyLower status == pyLower s) = false

/-- A VPC/VSwitch fetch oracle on which the status test never passes. -/
def neverMatchVpc (orc : Nat → FetchRes) (status : String) : Prop :=
  ∀ n, vpcMatches (orc n) status = false

/-- A route-entry fetch oracle on which the status never matches (a missing
entry also fails the test and keeps polling). -/
def neverMatchRoute (orc : Nat → FetchRes) (status : String) : Prop :=
  ∀ n s, orc n = .found s → (pyLower s == pyLower status) = false

/-- A disk fetch oracle on which the status never matches. -/
def neverMatchDisk (orc : Nat → FetchRes) (disk_status : String) : Prop :=
  ∀ n, ∃ s, orc n = .found s ∧ (disk_status == pyLower (pyStrip s)) = false

/-- An outcome `delete_object_retry` absorbs and retries past: a False
`get_status` result or a `ServerException` of any code. -/
def absorbable (r : CallRes) : Prop := r = .ok false ∨ ∃ c, r = .serverErr c

/-- A `get_status` oracle whose first call raises a `ServerException` with a
code DIFFERENT from the initializing code, and whose second call succeeds. -/
def orcOtherCode : Nat → CallRes := fun n =>
  match n with
  | 0 => .serverErr "InvalidDiskId.NotFound"
  | _ => .ok true

/-- A `get_status` oracle raising the initializing code five times before
succeeding on the sixth call. -/
def orcInitializing : Nat → CallRes := fun n =>
  if n < 5 then .serverErr "IncorrectInstanceStatus.Initializing" else .ok true

/-- Whether a per-instance outcome in `join_security_group` raises (and so
lands in `failed_instance_ids` with a `results` entry). -/
def joinIsErr : JoinRes → Bool
  | .verified _ => false
  | .serverErr _ _ _ _ => true
  | .genericErr _ => true

/-- The `results` entry appended for a raising per-instance outcome. -/
def joinErrEntry : JoinRes → BatchEntry
  | .serverErr c m rid hs => .serverErr c m rid hs
  | .genericErr m => .genericErr m
  | .verified _ => .genericErr ""

/-- Whether a per-instance outcome completes with a positive verification
(and so lands in `success_instance_ids`). -/
def joinOk : JoinRes → Bool
  | .verified true => true
  | _ => false

/-- Whether a `group_id` entry's value survives `value.startswith('sg-')`:
only strings do, any other value raises `AttributeError`. -/
def groupIdValGood : FVal → Bool
  | .str _ => true
  | .int _ => false
  | .dict _ => false

mutual

/-- A filters value whose processing by `build_filter_params` raises no
exception: the only raising path is a `group_id` entry whose value is not a
string, checked recursively through nested dict values (values under
`tag:`-prefixed keys are stored, never inspected). -/
def fvalGood : FVal → Bool
  | .str _ => true
  | .int _ => true
  | .dict d => fdictGood d

/-- Entry-wise companion of `fvalGood` over a filters dict. -/
def fdictGood : FDict → Bool
  | .nil => true
  | .cons k v rest =>
    (if pyStarts k "tag:" then true
     else if k = "group_id" then groupIdValGood v
     else fvalGood v) && fdictGood rest

end

mutual

/-- Size of a filters value, used as an induction measure. -/
def fvalSize : FVal → Nat
  | .str _ => 1
  | .int _ => 1
  | .dict d => 1 + fdictSize d

/-- Size of a filters dict, used as an induction measure. -/
def fdictSize : FDict → Nat
  | .nil => 1
  | .cons _ v rest => 1 + fvalSize v + fdictSize rest

end

/-- Every key of the dict carries the `tag:` filter form. -/
def fdictAllTag : FDict → Bool
  | .nil => true
  | .cons k _ rest => pyStarts k "tag:" && fdictAllTag rest

/-- Number of entries of a filters dict. -/
def fdLength : FDict → Nat
  | .nil => 0
  | .cons _ _ rest => fdLength rest + 1

/-- The parameters the numbered tag slots receive when the entries of the
dict are allocated to consecutive slots starting at `i`: slot `i` gets the
key with its `tag:` prefix stripped and the entry's value, and allocation
stops at slot 6 (entries beyond slot 5 are dropped). -/
def tagSlotParams (i : Nat) : FDict → Params
  | .nil => []
  | .cons k v rest =>
    if i < 6 then
      (tagKeyName i, .str (pyDrop k 4)) :: (tagValName i, v) :: tagSlotParams (i + 1) rest
    else []

theorem cdiv_one {a b : Nat} (ha : 0 < a) (hab : a ≤ b) : ceilDiv a b = 1 := by
  have hb : 0 < b := Nat.lt_of_lt_of_le ha hab
  have h1 : 1 ≤ (a + b - 1) / b := (Nat.one_le_div_iff hb).2 (by omega)
  have h2 : (a + b - 1) / b < 2 := (Nat.div_lt_iff_lt_mul hb).2 (by omega)
  unfold ceilDiv
  omega

theorem cdiv_succ {a b : Nat} (hb : 0 < b) (hab : b < a) :
    ceilDiv a b = ceilDiv (a - b) b + 1 := by
  have h1 : a + b - 1 = (a - b + b - 1) + b := by omega
  rw [ceilDiv, ceilDiv, h1, Nat.add_div_right _ hb]

theorem cdiv_pos {a b : Nat} (ha : 0 < a) (hb : 0 < b) : 1 ≤ ceilDiv a b :=
  (Nat.one_le_div_iff hb).2 (by omega)

theorem cdiv_bounds {a b : Nat} (ha : 0 < a) (hb : 0 < b) :
    (ceilDiv a b - 1) * b < a ∧ a ≤ ceilDiv a b * b := by
  have h1 : a + b - 1 < (ceilDiv a b + 1) * b := by
    have : (a + b - 1) / b < ceilDiv a b + 1 := by unfold ceilDiv; omega
    exact (Nat.div_lt_iff_lt_mul hb).1 this
  have h2 : ceilDiv a b * b ≤ a + b - 1 := by
    have : ceilDiv a b ≤ (a + b - 1) / b := Nat.le_refl _
    exact (Nat.le_div_iff_mul_le hb).1 this
  rw [Nat.add_one_mul] at h1
  rw [Nat.sub_one_mul]
  omega

theorem eipPollAux_nomatch {orc : Nat → FetchRes} {status : String}
    {interval timeout : Nat} (hi : 0 < interval)
    (hnm : neverMatchEip orc status) :
    ∀ fuel tm k sl, tm < timeout → timeout ≤ tm + fuel * interval →
      eipPollAux orc status interval timeout tm k sl fuel =
        ⟨.exn (eipTimeoutMsg status), k + ceilDiv (timeout - tm) interval,
          sl + (ceilDiv (timeout - tm) interval - 1)⟩ := by
  intro fuel
  induction fuel with
  | zero => intro tm k sl htm hle; omega
  | succ f ih =>
    intro tm k sl htm hle
    obtain ⟨s, hs, hsm⟩ := hnm k
    rw [eipPollAux, if_pos htm, hs]
    simp only [hsm, Bool.false_eq_true, if_false]
    by_cases hto : timeout ≤ tm + interval
    · rw [if_pos hto]
      have h1 : ceilDiv (timeout - tm) interval = 1 := cdiv_one (by omega) (by omega)
      simp [h1]
    · rw [if_neg hto]
      rw [Nat.succ_mul] at hle
      rw [ih (tm + interval) (k + 1) (sl + 1) (by omega) (by omega)]
      have hgt : interval < timeout - tm := by omega
      have h2 : ceilDiv (timeout - tm) interval
          = ceilDiv (timeout - tm - interval) interval + 1 := cdiv_succ hi hgt
      have h3 : 1 ≤ ceilDiv (timeout - tm - interval) interval :=
        cdiv_pos (by omega) hi
      have h4 : timeout - (tm + interval) = timeout - tm - interval := by omega
      rw [h4]
      congr 1 <;> omega

theorem routePollAux_nomatch {orc : Nat → FetchRes} {status : String}
    {delay timeout : Nat} (hd : 0 < delay)
    (hnm : neverMatchRoute orc status) :
    ∀ fuel tm k sl, tm < timeout → timeout ≤ tm + fuel * delay →
      routePollAux orc status delay timeout tm k sl fuel =
        ⟨.exn (routeTimeoutMsg status), k + ceilDiv (timeout - tm) delay,
          sl + (ceilDiv (timeout - tm) delay - 1)⟩ := by
  intro fuel
  induction fuel with
  | zero => intro tm k sl htm hle; omega
  | succ f ih =>
    intro tm k sl htm hle
    rw [routePollAux, if_pos htm]
    rw [Nat.succ_mul] at hle
    have step : (if timeout ≤ tm + delay then
          (⟨.exn (routeTimeoutMsg status), k + 1, sl⟩ : PollTrace (Option String))
        else routePollAux orc status delay timeout (tm + delay) (k + 1) (sl + 1) f) =
        ⟨.exn (routeTimeoutMsg status), k + ceilDiv (timeout - tm) delay,
          sl + (ceilDiv (timeout - tm) delay - 1)⟩ := by
      by_cases hto : timeout ≤ tm + delay
      · rw [if_pos hto]
        have h1 : ceilDiv (timeout - tm) delay = 1 := cdiv_one (by omega) (by omega)
        simp [h1]
      · rw [if_neg hto]
        rw [ih (tm + delay) (k + 1) (sl + 1) (by omega) (by omega)]
        have hgt : delay < timeout - tm := by omega
        have h2 : ceilDiv (timeout - tm) delay
            = ceilDiv (timeout - tm - delay) delay + 1 := cdiv_succ hd hgt
        have h3 : 1 ≤ ceilDiv (timeout - tm - delay) delay := cdiv_pos (by omega) hd
        have h4 : timeout - (tm + delay) = timeout - tm - delay := by omega
        rw [h4]
        congr 1 <;> omega
    cases horc : orc k with
    | missing => exact step
    | found s =>
      have hsm := hnm k s horc
      simp only [hsm, Bool.false_eq_true, if_false]
      exact step

theorem vpcPollAux_nomatch {orc : Nat → FetchRes} {status : String}
    {delay : Nat} (hd : 0 < delay) (hnm : neverMatchVpc orc status) :
    ∀ fuel timeout k sl, 0 < timeout → timeout ≤ fuel * delay →
      vpcPollAux orc status delay timeout k sl fuel =
        ⟨.exn (vpcTimeoutMsg status), k + ceilDiv timeout delay,
          sl + (ceilDiv timeout delay - 1)⟩ := by
  intro fuel
  induction fuel with
  | zero => intro timeout k sl ht hle; omega
  | succ f ih =>
    intro timeout k sl ht hle
    rw [vpcPollAux]
    simp only [hnm k, Bool.false_eq_true, if_false]
    by_cases hto : timeout ≤ delay
    · rw [if_pos hto]
      have h1 : ceilDiv timeout delay = 1 := cdiv_one ht hto
      simp [h1]
    · rw [if_neg hto]
      rw [Nat.succ_mul] at hle
      rw [ih (timeout - delay) (k + 1) (sl + 1) (by omega) (by omega)]
      have hgt : delay < timeout := by omega
      have h2 : ceilDiv timeout delay = ceilDiv (timeout - delay) delay + 1 :=
        cdiv_succ hd hgt
      have h3 : 1 ≤ ceilDiv (timeout - delay) delay := cdiv_pos (by omega) hd
      congr 1 <;> omega

theorem diskPollAux_nomatch {orc : Nat → FetchRes} {disk_status disk_id : String}
    (hnm : neverMatchDisk orc disk_status) :
    ∀ fuel k sl, diskPollAux orc disk_status disk_id k sl fuel =
      ⟨.diverge, k + fuel, sl + fuel⟩ := by
  intro fuel
  induction fuel with
  | zero =>
    intro k sl
    rfl
  | succ f ih =>
    intro k sl
    obtain ⟨s, hs, hsm⟩ := hnm k
    rw [diskPollAux, hs]
    simp only [hsm, Bool.false_eq_true, if_false]
    rw [ih (k + 1) (sl + 1)]
    congr 1 <;> omega

theorem eip_first_match {orc : Nat → FetchRes} {status s : String}
    {interval timeout fuel : Nat} (ht : 0 < timeout) (h0 : orc 0 = .found s)
    (hm : (pyLower status == pyLower s) = true) :
    wait_for_eip_status orc status interval timeout (fuel + 1) = ⟨.ok (some s), 1, 0⟩ := by
  rw [wait_for_eip_status, eipPollAux, if_pos ht, h0]
  simp only [hm, if_true]

theorem route_first_match {orc : Nat → FetchRes} {status s : String}
    {delay timeout fuel : Nat} (ht : 0 < timeout) (h0 : orc 0 = .found s)
    (hm : (pyLower s == pyLower status) = true) :
    wait_for_route_entry_status orc status delay timeout (fuel + 1) = ⟨.ok (some s), 1, 0⟩ := by
  rw [wait_for_route_entry_status, routePollAux, if_pos ht, h0]
  simp only [hm, if_true]

theorem vpc_first_match {orc : Nat → FetchRes} {status : String}
    {delay timeout fuel : Nat} (hm : vpcMatches (orc 0) status = true) :
    vpcPollAux orc status delay timeout 0 0 (fuel + 1) = ⟨.ok true, 1, 0⟩ := by
  rw [vpcPollAux, if_pos hm]

theorem instance_first_match {orc : Nat → FetchRes} {status s : String} {fuel : Nat}
    (h0 : orc 0 = .found s) (hm : (s == status || s == pyLower status) = true) :
    wait_for_instance_status orc status fuel = ⟨.ok (), 1, 0⟩ := by
  rw [wait_for_instance_status, h0]
  cases fuel with
  | zero => simp only [instancePollAux, hm, if_true]
  | succ f => simp only [instancePollAux, hm, if_true]

theorem disk_first_match {orc : Nat → FetchRes} {disk_status disk_id s : String}
    {fuel : Nat} (h0 : orc 0 = .found s)
    (hm : (disk_status == pyLower (pyStrip s)) = true) :
    wait_for_disk_status orc disk_status disk_id (fuel + 1) = ⟨.ok (true, none), 1, 1⟩ := by
  rw [wait_for_disk_status, diskPollAux, h0]
  simp only [hm, if_true]

theorem eip_timeout_zero (orc : Nat → FetchRes) (status : String)
    (interval fuel : Nat) :
    wait_for_eip_status orc status interval 0 (fuel + 1) = ⟨.ok none, 0, 0⟩ := by
  rw [wait_for_eip_status, eipPollAux, if_neg (by omega)]

theorem route_timeout_zero (orc : Nat → FetchRes) (status : String)
    (delay fuel : Nat) :
    wait_for_route_entry_status orc status delay 0 (fuel + 1) = ⟨.ok none, 0, 0⟩ := by
  rw [wait_for_route_entry_status, routePollAux, if_neg (by omega)]

/-- C1, counterexample.  The claim promises that every poller variant whose
first fetch already matches returns success without sleeping for every
timeout including 0.  At timeout 0 the EIP poller performs NO fetch at all
and returns `None` (not the matching EIP), and the disk poller sleeps once
before its first (matching) fetch. -/
theorem claim1_counterexample :
    wait_for_eip_status (fun _ => .found "Available") "Available" 3 0 5 = ⟨.ok none, 0, 0⟩ ∧
    (pyLower "Available" == pyLower "Available") = true ∧
    wait_for_disk_status (fun _ => .found "In_use") "in_use" "d-1" 5 = ⟨.ok (true, none), 1, 1⟩ := by
  decide

/-- C1, amended.  If the first fetch already matches the target state: the
VPC, VSwitch and instance pollers return success immediately with one fetch
and no sleep, for every timeout value including 0; the EIP and route-entry
pollers do so provided timeout > 0, while with timeout = 0 they perform no
fetch and return None; the disk poller always sleeps one interval before
its first fetch and then returns success with exactly that one sleep. -/
theorem claim1_amended :
    (∀ (orc : Nat → FetchRes) (status : String) (delay timeout fuel : Nat),
        vpcMatches (orc 0) status = true →
        wait_for_vpc_status orc status delay timeout (fuel + 1) = ⟨.ok true, 1, 0⟩) ∧
    (∀ (orc : Nat → FetchRes) (status : String) (delay timeout fuel : Nat),
        vpcMatches (orc 0) status = true →
        wait_for_vswitch_status orc status delay timeout (fuel + 1) = ⟨.ok true, 1, 0⟩) ∧
    (∀ (orc : Nat → FetchRes) (status s : String) (fuel : Nat),
        orc 0 = .found s → (s == status || s == pyLower status) = true →
        wait_for_instance_status orc status fuel = ⟨.ok (), 1, 0⟩) ∧
    (∀ (orc : Nat → FetchRes) (status s : String) (interval timeout fuel : Nat),
        0 < timeout → orc 0 = .found s → (pyLower status == pyLower s) = true →
        wait_for_eip_status orc status interval timeout (fuel + 1) = ⟨.ok (some s), 1, 0⟩) ∧
    (∀ (orc : Nat → FetchRes) (status s : String) (delay timeout fuel : Nat),
        0 < timeout → orc 0 = .found s → (pyLower s == pyLower status) = true →
        wait_for_route_entry_status orc status delay timeout (fuel + 1) = ⟨.ok (some s), 1, 0⟩) ∧
    (∀ (orc : Nat → FetchRes) (status : String) (interval fuel : Nat),
        wait_for_eip_status orc status interval 0 (fuel + 1) = ⟨.ok none, 0, 0⟩) ∧
    (∀ (orc : Nat → FetchRes) (status : String) (delay fuel : Nat),
        wait_for_route_entry_status orc status delay 0 (fuel + 1) = ⟨.ok none, 0, 0⟩) ∧
    (∀ (orc : Nat → FetchRes) (disk_status disk_id s : String) (fuel : Nat),
        orc 0 = .found s → (disk_status == pyLower (pyStrip s)) = true →
        wait_for_disk_status orc disk_status disk_id (fuel + 1) = ⟨.ok (true, none), 1, 1⟩) :=
  ⟨fun _ _ _ _ _ hm => vpc_first_match hm,
   fun _ _ _ _ _ hm => vpc_first_match hm,
   fun _ _ _ _ h0 hm => instance_first_match h0 hm,
   fun _ _ _ _ _ _ ht h0 hm => eip_first_match ht h0 hm,
   fun _ _ _ _ _ _ ht h0 hm => route_first_match ht h0 hm,
   fun orc status i fuel => eip_timeout_zero orc status i fuel,
   fun orc status d fuel => route_timeout_zero orc status d fuel,
   fun _ _ _ _ _ h0 hm => disk_first_match h0 hm⟩

/-- C1, witness: the amended statement evaluated at concrete inputs — a VPC
poll at timeout 0 whose first fetch matches, a disk poll whose first fetch
matches (one sleep), and an EIP poll with a case-differing match. -/
theorem claim1_witness :
    wait_for_vpc_status (fun _ => .found "Available") "Available" 4 0 6 = ⟨.ok true, 1, 0⟩ ∧
    wait_for_disk_status (fun _ => .found "In_use") "in_use" "d-7" 6 = ⟨.ok (true, none), 1, 1⟩ ∧
    wait_for_eip_status (fun _ => .found "AVAILABLE") "Available" 3 60 60 = ⟨.ok (some "AVAILABLE"), 1, 0⟩ :=
  ⟨claim1_amended.1 _ "Available" 4 0 5 (by decide),
   claim1_amended.2.2.2.2.2.2.2 _ "in_use" "d-7" "In_use" 5 rfl (by decide),
   claim1_amended.2.2.2.1 _ "Available" "AVAILABLE" 3 60 59 (by decide) rfl (by decide)⟩

/-- C2, counterexample.  The claim asks every poller variant to raise a
timeout error after exactly `ceil(timeout/interval)` fetches.  With timeout
0 the VPC poller still performs 1 fetch (not `ceil(0/4) = 0`) before
raising, and the EIP poller performs no fetch and returns None without
raising any timeout error at all. -/
theorem claim2_counterexample :
    wait_for_vpc_status (fun _ => .found "Pending") "Available" 4 0 5
      = ⟨.exn (vpcTimeoutMsg "Available"), 1, 0⟩ ∧
    ceilDiv 0 4 = 0 ∧
    wait_for_eip_status (fun _ => .found "Pending") "Available" 3 0 5 = ⟨.ok none, 0, 0⟩ := by
  decide

/-- C2, amended.  For the EIP, route-entry, VPC and VSwitch pollers with
interval > 0 and timeout > 0 (and fuel covering the run), a fetch sequence
that never matches leads to a raised timeout error after exactly
`ceil(timeout/interval)` fetches and `ceil(timeout/interval) - 1` sleeps, so
the slept time lies within one interval below the configured timeout
(`(c-1)·interval < timeout ≤ c·interval`).  With timeout = 0 the EIP and
route-entry pollers instead return None with no fetch, and the VPC/VSwitch
pollers raise after one fetch.  The disk poller has no wall-clock timeout:
on a never-matching fetch sequence it never returns for any fuel. -/
theorem claim2_amended :
    (∀ (orc : Nat → FetchRes) (status : String) (interval timeout fuel : Nat),
        0 < interval → 0 < timeout → timeout ≤ fuel * interval →
        neverMatchEip orc status →
        wait_for_eip_status orc status interval timeout fuel =
          ⟨.exn (eipTimeoutMsg status), ceilDiv timeout interval, ceilDiv timeout interval - 1⟩) ∧
    (∀ (orc : Nat → FetchRes) (status : String) (delay timeout fuel : Nat),
        0 < delay → 0 < timeout → timeout ≤ fuel * delay →
        neverMatchRoute orc status →
        wait_for_route_entry_status orc status delay timeout fuel =
          ⟨.exn (routeTimeoutMsg status), ceilDiv timeout delay, ceilDiv timeout delay - 1⟩) ∧
    (∀ (orc : Nat → FetchRes) (status : String) (delay timeout fuel : Nat),
        0 < delay → 0 < timeout → timeout ≤ fuel * delay →
        neverMatchVpc orc status →
        wait_for_vpc_status orc status delay timeout fuel =
          ⟨.exn (vpcTimeoutMsg status), ceilDiv timeout delay, ceilDiv timeout delay - 1⟩) ∧
    (∀ (orc : Nat → FetchRes) (status : String) (delay timeout fuel : Nat),
        0 < delay → 0 < timeout → timeout ≤ fuel * delay →
        neverMatchVpc orc status →
        wait_for_vswitch_status orc status delay timeout fuel =
          ⟨.exn (vpcTimeoutMsg status), ceilDiv timeout delay, ceilDiv timeout delay - 1⟩) ∧
    (∀ a b : Nat, 0 < a → 0 < b → (ceilDiv a b - 1) * b < a ∧ a ≤ ceilDiv a b * b) ∧
    (∀ (orc : Nat → FetchRes) (status : String) (interval fuel : Nat),
        wait_for_eip_status orc status interval 0 (fuel + 1) = ⟨.ok none, 0, 0⟩) ∧
    (∀ (orc : Nat → FetchRes) (status : String) (delay fuel : Nat),
        wait_for_route_entry_status orc status delay 0 (fuel + 1) = ⟨.ok none, 0, 0⟩) ∧
    (∀ (orc : Nat → FetchRes) (status : String) (delay fuel : Nat),
        neverMatchVpc orc status →
        wait_for_vpc_status orc status delay 0 (fuel + 1) = ⟨.exn (vpcTimeoutMsg status), 1, 0⟩) ∧
    (∀ (orc : Nat → FetchRes) (disk_status disk_id : String) (fuel : Nat),
        neverMatchDisk orc disk_status →
        (wait_for_disk_status orc disk_status disk_id fuel).result = .diverge) := by
  refine ⟨?_, ?_, ?_, ?_, ?_, ?_, ?_, ?_, ?_⟩
  · intro orc status i T fuel hi hT hle hnm
    have h := eipPollAux_nomatch hi hnm fuel 0 0 0 hT (by omega)
    rw [wait_for_eip_status, h]
    simp
  · intro orc status d T fuel hd hT hle hnm
    have h := routePollAux_nomatch hd hnm fuel 0 0 0 hT (by omega)
    rw [wait_for_route_entry_status, h]
    simp
  · intro orc status d T fuel hd hT hle hnm
    have h := vpcPollAux_nomatch hd hnm fuel T 0 0 hT hle
    rw [wait_for_vpc_status, h]
    simp
  · intro orc status d T fuel hd hT hle hnm
    have h := vpcPollAux_nomatch hd hnm fuel T 0 0 hT hle
    rw [wait_for_vswitch_status, h]
    simp
  · intro a b ha hb
    exact cdiv_bounds ha hb
  · intro orc status i fuel
    exact eip_timeout_zero orc status i fuel
  · intro orc status d fuel
    exact route_timeout_zero orc status d fuel
  · intro orc status d fuel hnm
    rw [wait_for_vpc_status, vpcPollAux]
    simp only [hnm 0, Bool.false_eq_true, if_false, if_pos (Nat.zero_le d)]
  · intro orc ds did fuel hnm
    rw [wait_for_disk_status, diskPollAux_nomatch hnm fuel 0 0]

/-- C2, witness: the amended statement at concrete inputs — an EIP poll with
interval 3 and timeout 7 against a never-matching fetch raises after
`ceil(7/3) = 3` fetches and 2 sleeps, and the disk poller diverges. -/
theorem claim2_witness :
    wait_for_eip_status (fun _ => .found "Pending") "Available" 3 7 7
      = ⟨.exn (eipTimeoutMsg "Available"), ceilDiv 7 3, ceilDiv 7 3 - 1⟩ ∧
    ceilDiv 7 3 = 3 ∧
    (wait_for_disk_status (fun _ => .found "Creating") "in_use" "d-1" 9).result = .diverge :=
  ⟨claim2_amended.1 _ "Available" 3 7 7 (by decide) (by decide) (by decide)
      (fun n => ⟨"Pending", rfl, by decide⟩),
   by decide,
   claim2_amended.2.2.2.2.2.2.2.2 _ "in_use" "d-1" 9
      (fun n => ⟨"Creating", rfl, by decide⟩)⟩

/-- C3, counterexample.  The claim asserts case-insensitive matching for
every poller variant, but the VSwitch poller accepts only the exact target
string or its all-lowercase form: a fetched status "AVAILABLE", equal to the
target "Available" up to case, is rejected and the poll times out instead
of succeeding. -/
theorem claim3_counterexample :
    wait_for_vswitch_status (fun _ => .found "AVAILABLE") "Available" 4 16 10
      = ⟨.exn (vpcTimeoutMsg "Available"), 4, 3⟩ ∧
    pyLower "AVAILABLE" = pyLower "Available" := by
  decide

/-- C3, amended.  Matching is case-insensitive only for the EIP and
route-entry pollers (lowercased fetched status compared with lowercased
target).  The VPC/VSwitch pollers accept exactly the target string or its
all-lowercase form — `vpcMatches` — so a fetched status that differs from
the target in any other casing never matches and the poll times out, even
when the two are equal up to case ("AVAILABLE" vs "Available").  The disk
poller lowercases and strips only the fetched status, comparing it to the
literal target, so an uppercase target ("Available" vs fetched
"available") is likewise rejected. -/
theorem claim3_amended :
    (∀ (orc : Nat → FetchRes) (status s : String) (interval timeout fuel : Nat),
        0 < timeout → orc 0 = .found s → (pyLower status == pyLower s) = true →
        wait_for_eip_status orc status interval timeout (fuel + 1) = ⟨.ok (some s), 1, 0⟩) ∧
    (∀ (orc : Nat → FetchRes) (status s : String) (delay timeout fuel : Nat),
        0 < timeout → orc 0 = .found s → (pyLower s == pyLower status) = true →
        wait_for_route_entry_status orc status delay timeout (fuel + 1) = ⟨.ok (some s), 1, 0⟩) ∧
    (∀ (s status : String), vpcMatches (.found s) status = (s == status || s == pyLower status)) ∧
    (∀ (orc : Nat → FetchRes) (status : String) (delay timeout fuel : Nat),
        0 < delay → 0 < timeout → timeout ≤ fuel * delay →
        neverMatchVpc orc status →
        wait_for_vswitch_status orc status delay timeout fuel =
          ⟨.exn (vpcTimeoutMsg status), ceilDiv timeout delay, ceilDiv timeout delay - 1⟩) ∧
    (vpcMatches (.found "AVAILABLE") "Available" = false ∧
      pyLower "AVAILABLE" = pyLower "Available") ∧
    (∀ (orc : Nat → FetchRes) (disk_status disk_id s : String) (fuel : Nat),
        orc 0 = .found s → (disk_status == pyLower (pyStrip s)) = true →
        wait_for_disk_status orc disk_status disk_id (fuel + 1) = ⟨.ok (true, none), 1, 1⟩) ∧
    ("Available" == pyLower (pyStrip "available")) = false := by
  refine ⟨?_, ?_, ?_, ?_, ?_, ?_, ?_⟩
  · intro orc status s i T fuel ht h0 hm
    exact eip_first_match ht h0 hm
  · intro orc status s d T fuel ht h0 hm
    exact route_first_match ht h0 hm
  · intro s status
    rfl
  · intro orc status d T fuel hd hT hle hnm
    have h := vpcPollAux_nomatch hd hnm fuel T 0 0 hT hle
    rw [wait_for_vswitch_status, h]
    simp
  · exact ⟨by decide, by decide⟩
  · intro orc ds did s fuel h0 hm
    exact disk_first_match h0 hm
  · decide

/-- C3, witness: case-insensitive acceptance on the EIP poller at a concrete
case-differing input, via the amended statement. -/
theorem claim3_witness :
    wait_for_eip_status (fun _ => .found "INUSE") "InUse" 2 60 60 = ⟨.ok (some "INUSE"), 1, 0⟩ :=
  claim3_amended.1 _ "InUse" "INUSE" 2 60 59 (by decide) rfl (by decide)

/-- C4, counterexample.  When the polled resource does not exist, the claim
requires a NotFound error to propagate as a failure; instead
`wait_for_eip_status` returns a silent `None` (no exception) and
`wait_for_disk_status` returns `(False, errdict)` (no exception). -/
theorem claim4_counterexample :
    wait_for_eip_status (fun _ => .missing) "Available" 3 60 70 = ⟨.ok none, 1, 0⟩ ∧
    wait_for_disk_status (fun _ => .missing) "in_use" "d-42" 5
      = ⟨.ok (false, some "The specified disk d-42 is not found."), 1, 1⟩ := by
  decide

/-- C4, amended.  When the first fetch finds no matching resource, the EIP
poller returns `None` normally after that single fetch with no sleep
(provided timeout > 0; a raised NotFound error never occurs), and the disk
poller returns `(False, descriptive-error-dict)` normally after one sleep
and one fetch.  The missing resource is signalled by a falsy return value,
not by an exception. -/
theorem claim4_amended :
    (∀ (orc : Nat → FetchRes) (status : String) (interval timeout fuel : Nat),
        0 < timeout → orc 0 = .missing →
        wait_for_eip_status orc status interval timeout (fuel + 1) = ⟨.ok none, 1, 0⟩) ∧
    (∀ (orc : Nat → FetchRes) (disk_status disk_id : String) (fuel : Nat),
        orc 0 = .missing →
        wait_for_disk_status orc disk_status disk_id (fuel + 1)
          = ⟨.ok (false, some ("The specified disk " ++ disk_id ++ " is not found.")), 1, 1⟩) := by
  constructor
  · intro orc status i T fuel hT h0
    rw [wait_for_eip_status, eipPollAux, if_pos hT, h0]
  · intro orc ds did fuel h0
    rw [wait_for_disk_status, diskPollAux, h0]

/-- C4, witness: the amended statement at a concrete missing resource. -/
theorem claim4_witness :
    wait_for_eip_status (fun _ => .missing) "InUse" 2 60 61 = ⟨.ok none, 1, 0⟩ ∧
    wait_for_disk_status (fun _ => .missing) "available" "d-9" 4
      = ⟨.ok (false, some ("The specified disk " ++ "d-9" ++ " is not found.")), 1, 1⟩ :=
  ⟨claim4_amended.1 _ "InUse" 2 60 60 (by decide) rfl,
   claim4_amended.2 _ "available" "d-9" 3 rfl⟩

theorem deleteRetryAux_run {orc : Nat → CallRes} :
    ∀ (n : Nat), ∀ (k sl fuel : Nat), n < fuel → orc (k + n) = .ok true →
      (∀ m, m < n → absorbable (orc (k + m))) →
      deleteRetryAux orc k sl fuel = ⟨.ok true, k + n + 1, sl + n + 1⟩ := by
  intro n
  induction n with
  | zero =>
    intro k sl fuel hf hok habs
    cases fuel with
    | zero => omega
    | succ f =>
      simp only [Nat.add_zero] at hok
      simp only [deleteRetryAux, hok]
  | succ n ih =>
    intro k sl fuel hf hok habs
    cases fuel with
    | zero => omega
    | succ f =>
      have h0 := habs 0 (by omega)
      simp only [Nat.add_zero] at h0
      have step : deleteRetryAux orc (k + 1) (sl + 1) f = ⟨.ok true, k + 1 + n + 1, sl + 1 + n + 1⟩ := by
        refine ih (k + 1) (sl + 1) f (by omega) ?_ ?_
        · have : k + 1 + n = k + (n + 1) := by omega
          rw [this]
          exact hok
        · intro m hm
          have : k + 1 + m = k + (m + 1) := by omega
          rw [this]
          exact habs (m + 1) (by omega)
      have e1 : k + 1 + n + 1 = k + (n + 1) + 1 := by omega
      have e2 : sl + 1 + n + 1 = sl + (n + 1) + 1 := by omega
      rw [e1, e2] at step
      rcases h0 with h0 | ⟨c, h0⟩
      · simp only [deleteRetryAux, h0]
        exact step
      · simp only [deleteRetryAux, h0]
        exact step

theorem deleteRetryAux_exn {orc : Nat → CallRes} {msg : String} :
    ∀ (n : Nat), ∀ (k sl fuel : Nat), n < fuel → orc (k + n) = .genericErr msg →
      (∀ m, m < n → absorbable (orc (k + m))) →
      deleteRetryAux orc k sl fuel = ⟨.exn msg, k + n + 1, sl + n + 1⟩ := by
  intro n
  induction n with
  | zero =>
    intro k sl fuel hf hok habs
    cases fuel with
    | zero => omega
    | succ f =>
      simp only [Nat.add_zero] at hok
      simp only [deleteRetryAux, hok]
  | succ n ih =>
    intro k sl fuel hf hok habs
    cases fuel with
    | zero => omega
    | succ f =>
      have h0 := habs 0 (by omega)
      simp only [Nat.add_zero] at h0
      have step : deleteRetryAux orc (k + 1) (sl + 1) f = ⟨.exn msg, k + 1 + n + 1, sl + 1 + n + 1⟩ := by
        refine ih (k + 1) (sl + 1) f (by omega) ?_ ?_
        · have : k + 1 + n = k + (n + 1) := by omega
          rw [this]
          exact hok
        · intro m hm
          have : k + 1 + m = k + (m + 1) := by omega
          rw [this]
          exact habs (m + 1) (by omega)
      have e1 : k + 1 + n + 1 = k + (n + 1) + 1 := by omega
      have e2 : sl + 1 + n + 1 = sl + (n + 1) + 1 := by omega
      rw [e1, e2] at step
      rcases h0 with h0 | ⟨c, h0⟩
      · simp only [deleteRetryAux, h0]
        exact step
      · simp only [deleteRetryAux, h0]
        exact step

/-- C5, counterexample.  A provider error whose code is NOT
"IncorrectInstanceStatus.Initializing" is absorbed and the delete retried
(it does not propagate): with such an error on the first call and success
on the second, `delete_object_retry` returns True after 2 delete calls.
And with the initializing code returned five times, the delete action is
invoked 6 times, more than the claimed maximum of 4. -/
theorem claim5_counterexample :
    delete_object_retry orcOtherCode 10 = ⟨.ok true, 2, 2⟩ ∧
    delete_object_retry orcInitializing 10 = ⟨.ok true, 6, 6⟩ := by
  decide

/-- C5, amended.  `delete_object_retry` sleeps 5 seconds before every
invocation of the delete action and retries without any bound on the
number of attempts: a `ServerException` of ANY error code (initializing or
not) as well as a False `get_status` result is absorbed and the delete
retried.  It returns at the first call reporting success — after n
absorbable outcomes that is n+1 delete calls and n+1 sleeps — and only a
non-`ServerException` exception escapes the loop (at the call that raised
it), propagating to the surrounding `retry` decorator. -/
theorem claim5_amended :
    (∀ (orc : Nat → CallRes) (n fuel : Nat), n < fuel → orc n = .ok true →
        (∀ m, m < n → absorbable (orc m)) →
        delete_object_retry orc fuel = ⟨.ok true, n + 1, n + 1⟩) ∧
    (∀ (orc : Nat → CallRes) (msg : String) (n fuel : Nat), n < fuel →
        orc n = .genericErr msg → (∀ m, m < n → absorbable (orc m)) →
        delete_object_retry orc fuel = ⟨.exn msg, n + 1, n + 1⟩) := by
  constructor
  · intro orc n fuel hf hok habs
    have h := deleteRetryAux_run n 0 0 fuel hf (by simpa using hok) (by simpa using habs)
    rw [delete_object_retry, h]
    simp
  · intro orc msg n fuel hf hok habs
    have h := deleteRetryAux_exn n 0 0 fuel hf (by simpa using hok) (by simpa using habs)
    rw [delete_object_retry, h]
    simp

/-- C5, witness: the amended statement at the concrete initializing-code
oracle — five absorbed provider errors, success on the sixth call. -/
theorem claim5_witness :
    delete_object_retry orcInitializing 12 = ⟨.ok true, 6, 6⟩ :=
  claim5_amended.1 orcInitializing 5 12 (by omega) (by decide)
    (fun m hm => Or.inr ⟨"IncorrectInstanceStatus.Initializing", by
      simp [orcInitializing, hm]⟩)

theorem joinAux_spec (orc : String → JoinRes) :
    ∀ (ids : List String) (changed : Bool),
      (joinAux orc changed ids).results
          = (ids.filter (fun i => joinIsErr (orc i))).map (fun i => joinErrEntry (orc i)) ∧
      (joinAux orc changed ids).success_instance_ids
          = ids.filter (fun i => joinOk (orc i)) ∧
      (joinAux orc changed ids).failed_instance_ids
          = ids.filter (fun i => joinIsErr (orc i)) := by
  intro ids
  induction ids with
  | nil => intro changed; exact ⟨rfl, rfl, rfl⟩
  | cons inst rest ih =>
    intro changed
    cases horc : orc inst with
    | verified v =>
      obtain ⟨h1, h2, h3⟩ := ih v
      cases v with
      | true =>
        simp [joinAux, horc, List.filter_cons, joinIsErr, joinOk, h1, h2, h3]
      | false =>
        simp [joinAux, horc, List.filter_cons, joinIsErr, joinOk, h1, h2, h3]
    | serverErr c m rid hs =>
      obtain ⟨h1, h2, h3⟩ := ih changed
      simp [joinAux, horc, List.filter_cons, joinIsErr, joinOk, joinErrEntry, h1, h2, h3]
    | genericErr m =>
      obtain ⟨h1, h2, h3⟩ := ih changed
      simp [joinAux, horc, List.filter_cons, joinIsErr, joinOk, joinErrEntry, h1, h2, h3]

/-- C6, confirmed.  For every list of instance ids and every per-item
outcome, `join_security_group` returns (never raises): its
`failed_instance_ids` are exactly the ids whose attempt raised, in input
order; its `results` list carries, in the same order, one entry per raising
id — for a `ServerException` the entry holds the provider's error code,
message, request id and http status; its `success_instance_ids` are exactly
the ids whose join verified.  In particular a provider error on one item
leaves the processing of every other item untouched. -/
theorem claim6_batch_independence :
    ∀ (instance_ids : List String) (orc : String → JoinRes),
      (join_security_group instance_ids orc).results
          = (instance_ids.filter (fun i => joinIsErr (orc i))).map (fun i => joinErrEntry (orc i)) ∧
      (join_security_group instance_ids orc).success_instance_ids
          = instance_ids.filter (fun i => joinOk (orc i)) ∧
      (join_security_group instance_ids orc).failed_instance_ids
          = instance_ids.filter (fun i => joinIsErr (orc i)) :=
  fun ids orc => joinAux_spec orc ids false

/-- C9, confirmed.  When the disk fetch finds a disk whose status is a
non-empty string other than "available" (up to strip/lower, e.g. "In_use"),
and an instance id is supplied, `attach_disk` returns changed = False with
the descriptive status error entry, and the list of issued provider actions
contains only the disk lookup — the `AttachDisk` request is never issued:
the precondition gate fires before the mutating call. -/
theorem claim9_attach_gate :
    ∀ (disk_id iid s : String) (d : DiskInfo) (rest : List DiskInfo)
      (call : AttachCall) (wait : WaitDiskRes),
      iid ≠ "" → d.status = s → s ≠ "" → pyLower (pyStrip s) ≠ "available" →
      attach_disk disk_id (some iid) (.ok (d :: rest)) call wait
        = (.ok (false, [.genericErr ("The disk " ++ disk_id ++ " status " ++ s
            ++ " does not support to operate attachment.")]), ["DescribeDisks"]) ∧
      "AttachDisk" ∉ (attach_disk disk_id (some iid) (.ok (d :: rest)) call wait).2 := by
  intro disk_id iid s d rest call wait hiid hst hs hnav
  subst hst
  have hmain : attach_disk disk_id (some iid) (.ok (d :: rest)) call wait
      = (.ok (false, [.genericErr ("The disk " ++ disk_id ++ " status " ++ d.status
          ++ " does not support to operate attachment.")]), ["DescribeDisks"]) := by
    simp [attach_disk, retrieve_instance_for_disk, pyTruthyOpt, hiid, hs, hnav]
  refine ⟨hmain, ?_⟩
  rw [hmain]
  show ("AttachDisk" : String) ∉ ["DescribeDisks"]
  decide

/-- C9, witness: the gate at a concrete disk reporting status "In_use". -/
theorem claim9_witness :
    attach_disk "d-1" (some "i-1") (.ok [⟨"In_use", "i-1", "true"⟩]) (.ok true) .done
      = (.ok (false, [.genericErr ("The disk " ++ "d-1" ++ " status " ++ "In_use"
          ++ " does not support to operate attachment.")]), ["DescribeDisks"]) ∧
    "AttachDisk" ∉ (attach_disk "d-1" (some "i-1") (.ok [⟨"In_use", "i-1", "true"⟩])
        (.ok true) .done).2 :=
  claim9_attach_gate "d-1" "i-1" "In_use" ⟨"In_use", "i-1", "true"⟩ [] (.ok true) .done
    (by decide) rfl (by decide) (by decide)

/-- C10, confirmed.  When the `DescribeInstances` fetch raises any
exception, `describe_instances` returns None: the exception does not
propagate and the result is not an empty list, while a successful fetch
returns its (possibly empty) list — so a caller testing only falsiness
cannot tell a failed fetch from an empty match. -/
theorem claim10_none_on_fetch_error :
    ∀ (e : String) (l : List String),
      describe_instances (.ok ()) (.error e) = .ok none ∧
      describe_instances (.ok ()) (.ok l) = .ok (some l) ∧
      describe_instances (.ok ()) (.error e) ≠ .ok (some ([] : List String)) :=
  fun e l => ⟨rfl, rfl, by simp [describe_instances]⟩

theorem fvalSize_str_eq (s : String) : fvalSize (.str s) = 1 := rfl

theorem fvalSize_int_eq (n : Int) : fvalSize (.int n) = 1 := rfl

theorem fvalSize_dict_eq (d : FDict) : fvalSize (.dict d) = 1 + fdictSize d := rfl

theorem fdictSize_nil_eq : fdictSize .nil = 1 := rfl

theorem fdictSize_cons_eq (k : String) (v : FVal) (rest : FDict) :
    fdictSize (.cons k v rest) = 1 + fvalSize v + fdictSize rest := rfl

theorem fdictSize_pos : ∀ l : FDict, 0 < fdictSize l := by
  intro l
  cases l with
  | nil => rw [fdictSize_nil_eq]; omega
  | cons k v rest => rw [fdictSize_cons_eq]; omega

theorem fvalSize_pos : ∀ v : FVal, 0 < fvalSize v := by
  intro v
  cases v with
  | str s => rw [fvalSize_str_eq]; omega
  | int n => rw [fvalSize_int_eq]; omega
  | dict d => rw [fvalSize_dict_eq]; omega

theorem fdictGood_cons_eq (k : String) (v : FVal) (rest : FDict) :
    fdictGood (.cons k v rest) =
      ((if pyStarts k "tag:" then true
        else if k = "group_id" then groupIdValGood v
        else fvalGood v) && fdictGood rest) := rfl

theorem bfpAux_nil_eq (p : Params) (flag : Nat) : bfpAux p flag .nil = .ok p := rfl

theorem bfpAux_tag_eq (p : Params) (flag : Nat) (k : String) (v : FVal) (rest : FDict)
    (ht : pyStarts k "tag:" = true) :
    bfpAux p flag (.cons k v rest) = bfpAux
      (if nextFree p flag (p.length + 1) < 6 then
        insertP (insertP p (tagKeyName (nextFree p flag (p.length + 1))) (.str (pyDrop k 4)))
          (tagValName (nextFree p flag (p.length + 1))) v
       else p)
      (nextFree p flag (p.length + 1) + 1) rest := by
  rw [bfpAux.eq_def]
  simp only [ht, if_true]

theorem bfpAux_group_str_eq (p : Params) (flag : Nat) (s : String) (rest : FDict) :
    bfpAux p flag (.cons "group_id" (.str s) rest)
      = bfpAux (insertP p "set_SecurityGroupId" (.str s)) flag rest := rfl

theorem bfpAux_group_int_eq (p : Params) (flag : Nat) (n : Int) (rest : FDict) :
    bfpAux p flag (.cons "group_id" (.int n) rest)
      = .error "AttributeError: object has no attribute startswith" := rfl

theorem bfpAux_group_dict_eq (p : Params) (flag : Nat) (d : FDict) (rest : FDict) :
    bfpAux p flag (.cons "group_id" (.dict d) rest)
      = .error "AttributeError: object has no attribute startswith" := rfl

theorem bfpAux_dict_eq (p : Params) (flag : Nat) (k : String) (d : FDict) (rest : FDict)
    (ht : pyStarts k "tag:" = false) (hg : ¬ k = "group_id") :
    bfpAux p flag (.cons k (.dict d) rest)
      = (match bfpAux p 1 d with
         | .ok p2 => bfpAux p2 flag rest
         | .error e => .error e) := by
  rw [bfpAux.eq_def]
  simp only [ht, Bool.false_eq_true, if_false, if_neg hg]

theorem bfpAux_str_eq (p : Params) (flag : Nat) (k s : String) (rest : FDict)
    (ht : pyStarts k "tag:" = false) (hg : ¬ k = "group_id") :
    bfpAux p flag (.cons k (.str s) rest)
      = bfpAux (insertP p ("set_" ++ pascalKey k) (.str s)) flag rest := by
  rw [bfpAux.eq_def]
  simp only [ht, Bool.false_eq_true, if_false, if_neg hg]

theorem bfpAux_int_eq (p : Params) (flag : Nat) (k : String) (n : Int) (rest : FDict)
    (ht : pyStarts k "tag:" = false) (hg : ¬ k = "group_id") :
    bfpAux p flag (.cons k (.int n) rest)
      = bfpAux (insertP p ("set_" ++ pascalKey k) (.int n)) flag rest := by
  rw [bfpAux.eq_def]
  simp only [ht, Bool.false_eq_true, if_false, if_neg hg]

theorem bfpAux_good_ok : ∀ (n : Nat) (l : FDict) (p : Params) (flag : Nat),
    fdictSize l ≤ n → fdictGood l = true → ∃ q, bfpAux p flag l = .ok q := by
  intro n
  induction n with
  | zero =>
    intro l p flag hsz _
    exact absurd hsz (by have := fdictSize_pos l; omega)
  | succ n ih =>
    intro l p flag hsz hg
    cases l with
    | nil => exact ⟨p, bfpAux_nil_eq p flag⟩
    | cons k v rest =>
      rw [fdictSize_cons_eq] at hsz
      have hvpos := fvalSize_pos v
      have hrest_sz : fdictSize rest ≤ n := by omega
      rw [fdictGood_cons_eq, Bool.and_eq_true] at hg
      obtain ⟨hhead, hrest⟩ := hg
      by_cases ht : pyStarts k "tag:" = true
      · rw [bfpAux_tag_eq p flag k v rest ht]
        exact ih rest _ _ hrest_sz hrest
      · have ht' : pyStarts k "tag:" = false := by
          cases h : pyStarts k "tag:" with
          | true => exact absurd h ht
          | false => rfl
        rw [ht'] at hhead
        simp only [Bool.false_eq_true, if_false] at hhead
        by_cases hgid : k = "group_id"
        · subst hgid
          rw [if_pos rfl] at hhead
          cases v with
          | str s =>
            rw [bfpAux_group_str_eq]
            exact ih rest _ _ hrest_sz hrest
          | int m => simp [groupIdValGood] at hhead
          | dict d => simp [groupIdValGood] at hhead
        · rw [if_neg hgid] at hhead
          cases v with
          | str s =>
            rw [bfpAux_str_eq p flag k s rest ht' hgid]
            exact ih rest _ _ hrest_sz hrest
          | int m =>
            rw [bfpAux_int_eq p flag k m rest ht' hgid]
            exact ih rest _ _ hrest_sz hrest
          | dict d =>
            have hd_sz : fdictSize d ≤ n := by
              rw [fvalSize_dict_eq] at hsz
              omega
            have hv : fdictGood d = true := hhead
            obtain ⟨p2, hp2⟩ := ih d p 1 hd_sz hv
            rw [bfpAux_dict_eq p flag k d rest ht' hgid, hp2]
            exact ih rest p2 flag hrest_sz hrest

/-- C7, counterexample.  A filters dict whose `group_id` entry holds a
non-string value makes `build_filter_params` raise (Python evaluates
`value.startswith('sg-')` on the non-string), so the call does not complete
without exception for every dict. -/
theorem claim7_counterexample :
    build_filter_params [] (.dict (.cons "group_id" (.int 5) .nil))
      = .error "AttributeError: object has no attribute startswith" := rfl

/-- C7, amended.  For every initial params accumulator and every filters
value in which each `group_id` entry (at any nesting level reached by the
dict recursion) holds a string value, `build_filter_params` completes
without raising: nested dict values recurse, malformed `group_id` strings
only emit a non-fatal warning, and every other entry is merged.  A
`group_id` entry with a non-string value is the one raising input. -/
theorem claim7_amended :
    ∀ (p : Params) (filters : FVal), fvalGood filters = true →
      ∃ q, build_filter_params p filters = .ok q := by
  intro p filters hg
  cases filters with
  | str s => exact ⟨p, rfl⟩
  | int n => exact ⟨p, rfl⟩
  | dict l =>
    exact bfpAux_good_ok (fdictSize l) l p 1 (le_refl _) hg

/-- C7, witness: the amended statement at a concrete filters dict holding a
malformed (but string) `group_id`, a nested dict, a `tag:` entry and a
plain entry. -/
theorem claim7_witness :
    ∃ q, build_filter_params []
      (.dict (.cons "group_id" (.str "sg-abc")
        (.cons "nested" (.dict (.cons "instance_id" (.str "i-1") .nil))
          (.cons "tag:env" (.str "prod") .nil)))) = .ok q :=
  claim7_amended [] _ (by decide)

theorem nextFree_ge (p : Params) : ∀ (fuel flag : Nat), flag ≤ nextFree p flag fuel := by
  intro fuel
  induction fuel with
  | zero => intro flag; exact Nat.le_refl _
  | succ f ih =>
    intro flag
    rw [nextFree]
    by_cases h : hasKey p (tagKeyName flag) = true
    · rw [if_pos h]
      exact Nat.le_trans (by omega) (ih (flag + 1))
    · rw [if_neg h]

theorem nextFree_of_free {p : Params} {flag : Nat}
    (h : hasKey p (tagKeyName flag) = false) (fuel : Nat) :
    nextFree p flag (fuel + 1) = flag := by
  rw [nextFree, h]
  simp

theorem hasKey_append (p q : Params) (k : String) :
    hasKey (p ++ q) k = (hasKey p k || hasKey q k) := by
  simp [hasKey, List.any_append]

theorem hasKey_single (a : String) (v : FVal) (k : String) :
    hasKey [(a, v)] k = (a == k) := by
  simp [hasKey]

theorem insertP_not_mem : ∀ (p : Params) (k : String) (v : FVal),
    hasKey p k = false → insertP p k v = p ++ [(k, v)] := by
  intro p
  induction p with
  | nil => intro k v _; rfl
  | cons kv rest ih =>
    intro k v h
    obtain ⟨k0, v0⟩ := kv
    simp only [hasKey, List.any_cons, Bool.or_eq_false_iff] at h
    obtain ⟨h0, hrest⟩ := h
    have hne : ¬ (k0 = k) := by
      intro e
      rw [e] at h0
      simp at h0
    rw [insertP, if_neg hne, ih k v hrest]
    rfl

theorem tag_names_ne : ∀ i j : Nat, i < 6 → j < 6 → i ≠ j →
    ((tagKeyName i == tagKeyName j) = false ∧ (tagValName i == tagKeyName j) = false ∧
     (tagValName i == tagValName j) = false ∧ (tagKeyName i == tagValName j) = false) := by
  intro i j hi hj hne
  interval_cases i <;> interval_cases j <;> revert hne <;> decide

theorem tag_key_ne_val : ∀ i : Nat, i < 6 →
    ((tagKeyName i == tagValName i) = false ∧ (tagValName i == tagKeyName i) = false) := by
  intro i hi
  interval_cases i <;> decide

theorem tagSlotParams_nil_eq (i : Nat) : tagSlotParams i .nil = [] := rfl

theorem tagSlotParams_cons_eq (i : Nat) (k : String) (v : FVal) (rest : FDict) :
    tagSlotParams i (.cons k v rest)
      = if i < 6 then
          (tagKeyName i, FVal.str (pyDrop k 4)) :: (tagValName i, v) :: tagSlotParams (i + 1) rest
        else [] := rfl

theorem tagSlotParams_ge {i : Nat} (h : 6 ≤ i) : ∀ l : FDict, tagSlotParams i l = [] := by
  intro l
  cases l with
  | nil => rfl
  | cons k v rest => rw [tagSlotParams_cons_eq, if_neg (by omega)]

theorem fdictAllTag_cons_eq (k : String) (v : FVal) (rest : FDict) :
    fdictAllTag (.cons k v rest) = (pyStarts k "tag:" && fdictAllTag rest) := rfl

theorem fdLength_cons_eq (k : String) (v : FVal) (rest : FDict) :
    fdLength (.cons k v rest) = fdLength rest + 1 := rfl

theorem bfpAux_all_tags_aux : ∀ (n : Nat) (l : FDict) (flag : Nat) (p : Params),
    fdLength l ≤ n →
    fdictAllTag l = true → 1 ≤ flag →
    (∀ j, flag ≤ j → j < 6 →
        hasKey p (tagKeyName j) = false ∧ hasKey p (tagValName j) = false) →
    bfpAux p flag l = .ok (p ++ tagSlotParams flag l) := by
  intro n
  induction n with
  | zero =>
    intro l flag p hn _ _ _
    cases l with
    | nil =>
      rw [bfpAux_nil_eq, tagSlotParams_nil_eq]
      simp
    | cons k v rest =>
      rw [fdLength_cons_eq] at hn
      omega
  | succ n ihn =>
    intro l flag p hn hall0 h1 hfree0
    cases l with
    | nil =>
      rw [bfpAux_nil_eq, tagSlotParams_nil_eq]
      simp
    | cons k v rest =>
      rw [fdLength_cons_eq] at hn
      have ih : ∀ (flag : Nat) (p : Params),
          fdictAllTag rest = true → 1 ≤ flag →
          (∀ j, flag ≤ j → j < 6 →
              hasKey p (tagKeyName j) = false ∧ hasKey p (tagValName j) = false) →
          bfpAux p flag rest = .ok (p ++ tagSlotParams flag rest) :=
        fun flag p => ihn rest flag p (by omega)
      have hall := hall0
      have hfree := hfree0
      rw [fdictAllTag_cons_eq, Bool.and_eq_true] at hall
      obtain ⟨hk, hrest⟩ := hall
      rw [bfpAux_tag_eq p flag k v rest hk]
      by_cases hlt : flag < 6
      · have hfk := (hfree flag (Nat.le_refl _) hlt).1
        have hfv := (hfree flag (Nat.le_refl _) hlt).2
        have hnf : nextFree p flag (p.length + 1) = flag := nextFree_of_free hfk p.length
        rw [hnf, if_pos hlt]
        have e1 : insertP p (tagKeyName flag) (.str (pyDrop k 4))
            = p ++ [(tagKeyName flag, FVal.str (pyDrop k 4))] := insertP_not_mem p _ _ hfk
        rw [e1]
        have hfv2 : hasKey (p ++ [(tagKeyName flag, FVal.str (pyDrop k 4))])
            (tagValName flag) = false := by
          rw [hasKey_append, hasKey_single, hfv, (tag_key_ne_val flag hlt).1]
          rfl
        have e2 : insertP (p ++ [(tagKeyName flag, FVal.str (pyDrop k 4))]) (tagValName flag) v
            = p ++ [(tagKeyName flag, FVal.str (pyDrop k 4))] ++ [(tagValName flag, v)] :=
          insertP_not_mem _ _ _ hfv2
        rw [e2]
        have hfreenew : ∀ j, flag + 1 ≤ j → j < 6 →
            hasKey (p ++ [(tagKeyName flag, FVal.str (pyDrop k 4))] ++ [(tagValName flag, v)])
                (tagKeyName j) = false ∧
            hasKey (p ++ [(tagKeyName flag, FVal.str (pyDrop k 4))] ++ [(tagValName flag, v)])
                (tagValName j) = false := by
          intro j hj hj6
          have hfj := hfree j (by omega) hj6
          obtain ⟨n1, n2, n3, n4⟩ := tag_names_ne flag j hlt hj6 (by omega)
          constructor
          · rw [hasKey_append, hasKey_append, hasKey_single, hasKey_single, hfj.1, n1, n2]
            rfl
          · rw [hasKey_append, hasKey_append, hasKey_single, hasKey_single, hfj.2, n4, n3]
            rfl
        rw [ih (flag + 1) _ hrest (by omega) hfreenew]
        rw [tagSlotParams_cons_eq, if_pos hlt]
        simp
      · have hge : 6 ≤ nextFree p flag (p.length + 1) := by
          have := nextFree_ge p (p.length + 1) flag
          omega
        rw [if_neg (by omega)]
        rw [ih _ p hrest (by omega) (fun j hj hj6 => False.elim (by omega))]
        rw [tagSlotParams_ge (by omega) rest, tagSlotParams_cons_eq, if_neg (by omega)]

/-- C8, confirmed.  For every filters dict all of whose keys carry the
`tag:` form, with six or more entries, `build_filter_params` on an empty
params accumulator populates exactly the numbered tag slots 1 through 5 —
`set_Tag1Key`/`set_Tag1Value` through `set_Tag5Key`/`set_Tag5Value`, each
slot receiving the corresponding entry's key (with the `tag:` prefix
stripped) and value in iteration order — drops every entry beyond the
fifth silently, and raises no error (`tagSlotParams 1 l` truncates at slot
5 by construction). -/
theorem claim8_tag_slots :
    ∀ l : FDict, fdictAllTag l = true → 6 ≤ fdLength l →
      build_filter_params [] (.dict l) = .ok (tagSlotParams 1 l) := by
  intro l hall hlen
  have h := bfpAux_all_tags_aux (fdLength l) l 1 [] (Nat.le_refl _) hall (Nat.le_refl 1)
    (fun j hj hj6 => ⟨rfl, rfl⟩)
  rw [show build_filter_params [] (.dict l) = bfpAux [] 1 l from rfl, h]
  simp

/-- C8, witness: the theorem at a concrete dict of six `tag:` keys; the
resulting params hold exactly slots 1-5 and no `set_Tag6Key`. -/
theorem claim8_witness :
    build_filter_params []
      (.dict (.cons "tag:a" (.str "1") (.cons "tag:b" (.str "2") (.cons "tag:c" (.str "3")
        (.cons "tag:d" (.str "4") (.cons "tag:e" (.str "5") (.cons "tag:f" (.str "6") .nil)))))))
      = .ok (tagSlotParams 1
          (.cons "tag:a" (.str "1") (.cons "tag:b" (.str "2") (.cons "tag:c" (.str "3")
            (.cons "tag:d" (.str "4") (.cons "tag:e" (.str "5") (.cons "tag:f" (.str "6") .nil))))))) ∧
    tagSlotParams 1
        (.cons "tag:a" (.str "1") (.cons "tag:b" (.str "2") (.cons "tag:c" (.str "3")
          (.cons "tag:d" (.str "4") (.cons "tag:e" (.str "5") (.cons "tag:f" (.str "6") .nil))))))
      = [("set_Tag1Key", .str "a"), ("set_Tag1Value", .str "1"),
         ("set_Tag2Key", .str "b"), ("set_Tag2Value", .str "2"),
         ("set_Tag3Key", .str "c"), ("set_Tag3Value", .str "3"),
         ("set_Tag4Key", .str "d"), ("set_Tag4Value", .str "4"),
         ("set_Tag5Key", .str "e"), ("set_Tag5Value", .str "5")] :=
  ⟨claim8_tag_slots _ (by decide) (by decide), rfl⟩

set_option maxHeartbeats 2000000 in
/-- C8, counterexample.  The claim quantifies over every dict CONTAINING six
or more distinct `tag:` keys, and two in-domain dicts falsify it.  First,
adding a `group_id` entry with a non-string value makes the call raise
`AttributeError` rather than complete without error.  Second, adding the
plain key "tag1_key" — whose snake-to-Pascal conversion produces exactly
the slot name `set_Tag1Key` — displaces slot 1: the probe loop skips it, so
`set_Tag1Value` is never populated, the tag entries land in slots 2-5 only,
and two of the six tag keys are dropped instead of one. -/
theorem claim8_counterexample :
    build_filter_params []
      (.dict (.cons "tag:a" (.str "1") (.cons "tag:b" (.str "2") (.cons "tag:c" (.str "3")
        (.cons "tag:d" (.str "4") (.cons "tag:e" (.str "5") (.cons "tag:f" (.str "6")
          (.cons "group_id" (.int 5) .nil))))))))
      = .error "AttributeError: object has no attribute startswith" ∧
    build_filter_params []
      (.dict (.cons "tag1_key" (.str "x") (.cons "tag:a" (.str "1") (.cons "tag:b" (.str "2")
        (.cons "tag:c" (.str "3") (.cons "tag:d" (.str "4") (.cons "tag:e" (.str "5")
          (.cons "tag:f" (.str "6") .nil))))))))
      = .ok [("set_Tag1Key", .str "x"),
             ("set_Tag2Key", .str "a"), ("set_Tag2Value", .str "1"),
             ("set_Tag3Key", .str "b"), ("set_Tag3Value", .str "2"),
             ("set_Tag4Key", .str "c"), ("set_Tag4Value", .str "3"),
             ("set_Tag5Key", .str "d"), ("set_Tag5Value", .str "4")] ∧
    hasKey [("set_Tag1Key", FVal.str "x"),
            ("set_Tag2Key", FVal.str "a"), ("set_Tag2Value", FVal.str "1"),
            ("set_Tag3Key", FVal.str "b"), ("set_Tag3Value", FVal.str "2"),
            ("set_Tag4Key", FVal.str "c"), ("set_Tag4Value", FVal.str "3"),
            ("set_Tag5Key", FVal.str "d"), ("set_Tag5Value", FVal.str "4")]
        "set_Tag1Value" = false :=
  ⟨rfl, rfl, rfl⟩
